import Mathlib

/-!
Verification development for the AI document assistant's orchestration core:
the manual tool-calling agent loop (`app/agent_simple.py`) and the two
LangGraph workflow state machines (`app/graph_workflows.py`).

Strings are modelled as `List Char`; Python collaborator calls that may
raise are modelled as `Except (List Char) α` values carrying the exception
message.
-/

set_option maxRecDepth 40000

/-- Convert a Lean string literal to the `List Char` representation used
throughout this development. -/
def strL (s : String) : List Char := s.data

/-- The whitespace class of Python's `str.strip` and of the regex class
`\s` (ASCII fragment, which covers the texts handled here). -/
def isPySpace (c : Char) : Bool :=
  c = ' ' || c = '\t' || c = '\n' || c = '\r' || c = '\x0b' || c = '\x0c'

/-- The regex word-character class `\w` (ASCII fragment): letters, digits
and underscore. -/
def isWordChar (c : Char) : Bool :=
  c.isAlpha || c.isDigit || c = '_'

/-- Python's `str.strip()`: remove leading and trailing whitespace. -/
def pyStrip (l : List Char) : List Char :=
  ((l.dropWhile isPySpace).reverse.dropWhile isPySpace).reverse

/-- Python's substring containment test `pat in s`. -/
def containsStr (pat : List Char) : List Char → Bool
  | [] => pat.isPrefixOf []
  | c :: rest => pat.isPrefixOf (c :: rest) || containsStr pat rest

/-- Python's `s.split(pat, 1)[1]`: everything after the first occurrence
of `pat` (callers only use it when `pat` occurs in `s`). -/
def afterFirst (pat : List Char) : List Char → List Char
  | [] => []
  | c :: rest =>
    if pat.isPrefixOf (c :: rest) then (c :: rest).drop pat.length
    else afterFirst pat rest

/-- Python's `str.lower()` (ASCII fragment). -/
def lowerStr (l : List Char) : List Char := l.map Char.toLower

/-- Python's `sep.join(items)`. -/
def joinSep (sep : List Char) : List (List Char) → List Char
  | [] => []
  | [x] => x
  | x :: y :: rest => x ++ sep ++ joinSep sep (y :: rest)

/-- Model of `re.search(r'TOOL:\s*(\w+)', s)` from `run_agent`
(`app/agent_simple.py` line 122): the captured group of the leftmost
match, i.e. at the first occurrence of `TOOL:` that is followed, after a
whitespace run, by at least one word character, the maximal word-character
run there. -/
def searchToolName : List Char → Option (List Char)
  | [] => none
  | c :: rest =>
    if (strL "TOOL:").isPrefixOf (c :: rest) then
      let afterWs := ((c :: rest).drop 5).dropWhile isPySpace
      match afterWs with
      | d :: _ =>
        if isWordChar d then some (afterWs.takeWhile isWordChar)
        else searchToolName rest
      | [] => searchToolName rest
    else searchToolName rest

/-- The captured group of `re.search(r'INPUT:\s*(.+?)(?=\n|$)', s,
re.DOTALL)` at an occurrence of `INPUT:` whose tail `t` is nonempty:
the greedy `\s*` consumes the whitespace run (backing off one character
when the whole tail is whitespace, since `.+?` needs at least one
character), and the lazy `.+?` then extends to the first newline or the
end of the text. -/
def inputGroup (t : List Char) : List Char :=
  let w := (t.takeWhile isPySpace).length
  let k := if w = t.length then t.length - 1 else w
  let u := t.drop k
  u.take 1 ++ (u.drop 1).takeWhile (fun c => c ≠ '\n')

/-- Model of `re.search(r'INPUT:\s*(.+?)(?=\n|$)', s, re.DOTALL)` from
`run_agent` (`app/agent_simple.py` line 123): the captured group of the
leftmost match.  The pattern matches at an occurrence of `INPUT:` exactly
when something follows the marker, so the search fails only when the sole
`INPUT:` sits at the very end of the text. -/
def searchInput : List Char → Option (List Char)
  | [] => none
  | c :: rest =>
    if (strL "INPUT:").isPrefixOf (c :: rest) then
      let t := (c :: rest).drop 6
      if t = [] then searchInput rest else some (inputGroup t)
    else searchInput rest

/-- Final-answer extraction at the end of `run_agent`
(`app/agent_simple.py` lines 162-165): if the response contains
`ANSWER:`, everything after the first occurrence, stripped; otherwise the
whole response. -/
def extract_final_answer (resp : List Char) : List Char :=
  if containsStr (strL "ANSWER:") resp then
    pyStrip (afterFirst (strL "ANSWER:") resp)
  else resp

/-- A LangChain chat message, as built by `run_agent` and the workflow
steps (`SystemMessage` / `HumanMessage` / `AIMessage`). -/
inductive Msg where
  | system (content : List Char)
  | human (content : List Char)
  | ai (content : List Char)
deriving Repr, DecidableEq

/-- A registered tool as produced by `app/tools.py`: a unique name, a
description, and a synchronous function from an input string to an
observation string.  The function is modelled as `Except`-valued because
a tool invocation may raise. -/
structure ToolDescriptor where
  name : List Char
  description : List Char
  func : List Char → Except (List Char) (List Char)

/-- The model of the language-model backend (`self.llm_service.llm.ainvoke`
and `llm.invoke`): from the accumulated message list to either a response
text or a raised exception's message. -/
def Oracle : Type := List Msg → Except (List Char) (List Char)

/-- The lookup `tool_name in self.tool_map` / `self.tool_map[tool_name]`
where `tool_map = {tool.name: tool for tool in self.tools}`: a Python
dict comprehension lets a later entry override an earlier one with the
same name, hence the reversed search. -/
def lookupTool (tools : List ToolDescriptor) (n : List Char) : Option ToolDescriptor :=
  tools.reverse.find? (fun t => t.name == n)

/-- One entry of `tool_usage` (`app/agent_simple.py` lines 139-143). -/
structure ToolInvocationRecord where
  tool : List Char
  tool_input : List Char
  observation : List Char
deriving Repr, DecidableEq

/-- The result dict of `run_agent` (`app/agent_simple.py` lines 176-181
and 189-195); `intermediate_steps` is constantly `[]` and omitted. -/
structure AgentRunResult where
  output : List Char
  tool_usage : List ToolInvocationRecord
  success : Bool
  error : Option (List Char)
deriving Repr, DecidableEq

/-- The tool-description block built by `_get_tool_descriptions`. -/
def tool_descriptions (tools : List ToolDescriptor) : List Char :=
  joinSep (strL "\n") (tools.map fun t => strL "- " ++ t.name ++ strL ": " ++ t.description)

/-- The system prompt built at the start of `run_agent`
(`app/agent_simple.py` lines 83-99). -/
def system_prompt (tools : List ToolDescriptor) : List Char :=
  strL "You are a helpful AI assistant with access to the following tools:\n\n"
    ++ tool_descriptions tools
    ++ strL "\n\nTo use a tool, respond with:\nTOOL: <tool_name>\nINPUT: <tool_input>\n\nYou can use multiple tools if needed. After using tools, provide your final answer starting with \"ANSWER:\".\n\nIf you don\x27t need any tools, just provide your answer directly.\n\nExamples:\n- For \"What is 2+2?\": Use Calculator\n- For \"Search for AI news\": Use WebSearch  \n- For \"What documents do I have?\": Use ListDocuments\n"

/-- Model of `_format_chat_history`: history entries with role `user` become human
messages, role `assistant` becomes AI messages, anything else is dropped. -/
def format_chat_history : List (List Char × List Char) → List Msg
  | [] => []
  | (role, content) :: rest =>
    if role = strL "user" then Msg.human content :: format_chat_history rest
    else if role = strL "assistant" then Msg.ai content :: format_chat_history rest
    else format_chat_history rest

/-- The initial message list of a run: system prompt, then the formatted
history, then the user query (`app/agent_simple.py` lines 102-107). -/
def initialMessages (tools : List ToolDescriptor) (query : List Char)
    (history : List (List Char × List Char)) : List Msg :=
  [Msg.system (system_prompt tools)] ++ format_chat_history history ++ [Msg.human query]

/-- Outcome of the `while` loop of `run_agent`: the last response text
received, the accumulated `tool_usage`, the message of a raised exception
(if one escaped to the `except` handler), and the number of Gateway
invocations that were issued. -/
structure LoopOut where
  resp : List Char
  usage : List ToolInvocationRecord
  err : Option (List Char)
  calls : Nat
deriving Repr, DecidableEq

/-- The user turn appended after a tool dispatch
(`app/agent_simple.py` lines 147-149). -/
def toolResultMsg (obs : List Char) : List Char :=
  strL "Tool result: " ++ obs ++ strL "\n\nNow provide your final answer."

/-- The `while iteration < max_iterations` loop of `run_agent`
(`app/agent_simple.py` lines 112-159), with `fuel` the remaining
iterations.  Each iteration invokes the Gateway once; a response holding
a `TOOL:`/`INPUT:` pair whose extraction succeeds and names a registered
tool dispatches that tool, records the (500-character-truncated)
observation, extends the conversation and continues; every other case
breaks out of the loop.  An exception from the Gateway or from the tool
is routed to the `except` handler via the `err` field. -/
def agentLoop (tools : List ToolDescriptor) (llm : Oracle) :
    Nat → List Msg → List ToolInvocationRecord → List Char → Nat → LoopOut
  | 0, _, usage, resp, calls => ⟨resp, usage, none, calls⟩
  | fuel + 1, messages, usage, prev, calls =>
    match llm messages with
    | Except.error e => ⟨prev, usage, some e, calls + 1⟩
    | Except.ok resp =>
      if containsStr (strL "TOOL:") resp && containsStr (strL "INPUT:") resp then
        match searchToolName resp, searchInput resp with
        | some tn, some ti =>
          let tool_name := pyStrip tn
          let tool_input := pyStrip ti
          match lookupTool tools tool_name with
          | some tool =>
            match tool.func tool_input with
            | Except.error e => ⟨resp, usage, some e, calls + 1⟩
            | Except.ok tool_result =>
              agentLoop tools llm fuel
                (messages ++ [Msg.ai resp, Msg.human (toolResultMsg tool_result)])
                (usage ++ [⟨tool_name, tool_input, tool_result.take 500⟩])
                resp (calls + 1)
          | none => ⟨resp, usage, none, calls + 1⟩
        | _, _ => ⟨resp, usage, none, calls + 1⟩
      else ⟨resp, usage, none, calls + 1⟩

/-- Turning the loop outcome into the returned dict: the `except` handler
(`app/agent_simple.py` lines 183-195) on an escaped exception, otherwise
the success record with the extracted final answer (lines 161-181). -/
def finishRun (out : LoopOut) : AgentRunResult :=
  match out.err with
  | some e => ⟨strL "I encountered an error: " ++ e, [], false, some e⟩
  | none => ⟨extract_final_answer out.resp, out.usage, true, none⟩

/-- Model of `run_agent` (`app/agent_simple.py` lines 51-195), paired with the
number of Gateway invocations the run performed. -/
def run_agent (tools : List ToolDescriptor) (llm : Oracle) (query : List Char)
    (history : List (List Char × List Char)) (max_iterations : Nat) :
    AgentRunResult × Nat :=
  let out := agentLoop tools llm max_iterations (initialMessages tools query history) [] [] 0
  (finishRun out, out.calls)

/-- The `calculations` entry `{"expression": ..., "result": ...}` of the
research state; the numeric result of `numexpr.evaluate(...).item()` is
modelled as an integer. -/
structure Calc where
  expression : List Char
  result : Int
deriving Repr, DecidableEq

/-- Model of `ResearchState` from `app/graph_state.py`. -/
structure ResearchState where
  query : List Char
  messages : List Msg
  documents_found : List (List Char)
  web_results : Option (List Char)
  calculations : Option Calc
  research_plan : Option (List Char)
  final_answer : Option (List Char)
  iterations : Int
  needs_approval : Bool
  approved : Option Bool
  error : Option (List Char)
deriving Repr, DecidableEq

/-- The vector-store collaborator used by the workflow steps
(`get_vector_store_service()`): `list_documents` and `search`, each able
to raise. -/
structure SearchDoc where
  filename : List Char
  page_content : List Char
deriving Repr, DecidableEq

/-- Abstract retrieval collaborator (vector store). -/
structure VectorStore where
  list_documents : Except (List Char) (List (List Char))
  search : List Char → Nat → Except (List Char) (List SearchDoc)

/-- The prompt of `create_research_plan` (`app/graph_workflows.py`
lines 27-35). -/
def planPrompt (q : List Char) : List Char :=
  strL "Given this query: \"" ++ q
    ++ strL "\"\n\nCreate a step-by-step research plan. Consider:\n1. Do we need to search documents?\n2. Do we need to search the web?\n3. Do we need to perform calculations?\n4. What\x27s the best order to execute these steps?\n\nRespond with a concise plan (3-5 steps)."

/-- Model of `create_research_plan` (`app/graph_workflows.py` lines 21-47): asks
the Gateway for a plan, records it, appends a message and increments
`iterations`.  The Gateway call is not wrapped in a `try`, so its
exception propagates out of the step. -/
def create_research_plan (llm : Oracle) (s : ResearchState) :
    Except (List Char) ResearchState := do
  let plan ← llm [Msg.human (planPrompt s.query)]
  pure { s with
    research_plan := some plan,
    messages := s.messages ++ [Msg.ai (strL "Research plan: " ++ plan)],
    iterations := s.iterations + 1 }

/-- The relevance test at the top of `search_documents`: the lowered
query contains `document` or `file`. -/
def docCue (q : List Char) : Bool :=
  containsStr (strL "document") (lowerStr q) || containsStr (strL "file") (lowerStr q)

/-- The `try` block of `search_documents` (`app/graph_workflows.py`
lines 58-86): list the documents; when some exist, run a top-3 search and
append a digest message; otherwise record the absence. -/
def search_documents_attempt (vs : VectorStore) (s : ResearchState) :
    Except (List Char) ResearchState := do
  let documents ← vs.list_documents
  if documents ≠ [] then
    let results ← vs.search s.query 3
    let docs_content := joinSep (strL "\n\n")
      (results.map fun d => strL "[" ++ d.filename ++ strL "]: " ++ d.page_content.take 200)
    pure { s with
      documents_found := documents,
      messages := s.messages ++ [Msg.ai (strL "Found relevant info in documents:\n" ++ docs_content)] }
  else
    pure { s with
      documents_found := [],
      messages := s.messages ++ [Msg.ai (strL "No documents found in the system.")] }

/-- Model of `search_documents` (`app/graph_workflows.py` lines 49-92): a no-op
without a document cue in the query; otherwise the `try` block above with
the `except` handler recording `Document search error: ...` into `error`. -/
def search_documents (vs : VectorStore) (s : ResearchState) : ResearchState :=
  if !docCue s.query then s
  else
    match search_documents_attempt vs s with
    | Except.ok s' => s'
    | Except.error e => { s with error := some (strL "Document search error: " ++ e) }

/-- The recency-cue test of `search_web`. -/
def webCue (q : List Char) : Bool :=
  [strL "current", strL "latest", strL "recent", strL "news", strL "today"].any
    (fun w => containsStr w (lowerStr q))

/-- Model of `search_web` (`app/graph_workflows.py` lines 94-122): a no-op without
a recency cue; otherwise the web-search collaborator is consulted, its
result recorded (message truncated to 300 characters plus `...`), and an
exception recorded as `Web search error: ...`. -/
def search_web (ws : List Char → Except (List Char) (List Char)) (s : ResearchState) :
    ResearchState :=
  if webCue s.query then
    match ws s.query with
    | Except.ok results =>
      { s with
        web_results := some results,
        messages := s.messages ++ [Msg.ai (strL "Web search results: " ++ results.take 300 ++ strL "...")] }
    | Except.error e => { s with error := some (strL "Web search error: " ++ e) }
  else s

/-- The calculation-cue test of `perform_calculations`. -/
def calcCue (q : List Char) : Bool :=
  [strL "calculate", strL "compute", strL "how many", strL "what is", strL "+"].any
    (fun w => containsStr w (lowerStr q))

/-- The extraction prompt of `perform_calculations`
(`app/graph_workflows.py` lines 135-137). -/
def calcPrompt (q : List Char) : List Char :=
  strL "Extract any mathematical expression from this query: \"" ++ q
    ++ strL "\"\nIf there\x27s a calculation, respond with ONLY the expression (e.g., \"2+2\", \"sqrt(16)\").\nIf no calculation is needed, respond with \"NONE\"."

/-- The `try` block of `perform_calculations` (`app/graph_workflows.py`
lines 130-152): ask the Gateway for a bare expression; when it is neither
`NONE` nor empty, evaluate it (the `ne` collaborator models
`numexpr.evaluate(...).item()`) and record the calculation; `none` means
control fell out of the inner `if` without returning. -/
def perform_calculations_attempt (ne : List Char → Except (List Char) Int)
    (llm : Oracle) (s : ResearchState) : Except (List Char) (Option ResearchState) := do
  let resp ← llm [Msg.human (calcPrompt s.query)]
  let expression := pyStrip resp
  if expression ≠ strL "NONE" ∧ expression ≠ [] then
    let result ← ne expression
    pure (some { s with
      calculations := some ⟨expression, result⟩,
      messages := s.messages ++ [Msg.ai
        (strL "Calculation: " ++ expression ++ strL " = " ++ strL (toString result))] })
  else pure none

/-- Model of `perform_calculations` (`app/graph_workflows.py` lines 124-156): a
no-op without a calculation cue; otherwise the `try` block above, whose
`except` handler only logs — on an exception (and when no expression was
extracted) the input state is returned unchanged. -/
def perform_calculations (ne : List Char → Except (List Char) Int)
    (llm : Oracle) (s : ResearchState) : ResearchState :=
  if calcCue s.query then
    match perform_calculations_attempt ne llm s with
    | Except.ok (some s') => s'
    | Except.ok none => s
    | Except.error _ => s
  else s

/-- The synthesis prompt context (`app/graph_workflows.py` lines 164-177):
parts are included under Python truthiness of the corresponding fields. -/
def synthContext (s : ResearchState) : List Char :=
  joinSep (strL "\n\n")
    ([strL "Original query: " ++ s.query]
      ++ (if s.documents_found ≠ [] then
            [strL "Documents available: " ++ joinSep (strL ", ") s.documents_found] else [])
      ++ (match s.web_results with
          | some w => if w ≠ [] then [strL "Web results: " ++ w.take 500] else []
          | none => [])
      ++ (match s.calculations with
          | some c => [strL "Calculation: " ++ c.expression ++ strL " = " ++ strL (toString c.result)]
          | none => []))

/-- The synthesis prompt of `synthesize_answer`
(`app/graph_workflows.py` lines 179-183). -/
def synthPrompt (s : ResearchState) : List Char :=
  strL "Based on the research gathered:\n\n" ++ synthContext s
    ++ strL "\n\nProvide a comprehensive answer to the original query. Synthesize all the information into a clear, well-structured response."

/-- Model of `synthesize_answer` (`app/graph_workflows.py` lines 158-194): builds
the digest, asks the Gateway for the comprehensive answer, and records it
as `final_answer`.  The Gateway call is not wrapped in a `try`. -/
def synthesize_answer (llm : Oracle) (s : ResearchState) :
    Except (List Char) ResearchState := do
  let resp ← llm [Msg.human (synthPrompt s)]
  pure { s with
    final_answer := some resp,
    messages := s.messages ++ [Msg.ai resp] }

/-- Python truthiness of an optional string field (`None` and the empty
string are falsy). -/
def truthyOptStr : Option (List Char) → Bool
  | some w => w ≠ []
  | none => false

/-- Model of `should_continue_research` (`app/graph_workflows.py` lines 196-214):
the post-`calculate` routing function; `has_info` is the Python
truthiness of the three gathered-information fields. -/
def should_continue_research (s : ResearchState) : List Char :=
  if s.error.isSome then strL "error"
  else if 5 ≤ s.iterations then strL "synthesize"
  else if s.documents_found ≠ [] || truthyOptStr s.web_results || s.calculations.isSome then
    strL "synthesize"
  else strL "continue"

/-- The compiled research graph of `create_research_workflow`
(`app/graph_workflows.py` lines 216-248): `plan → search_docs →
search_web → calculate`, then the conditional edge mapping `continue` and
`synthesize` to `synthesize` and `error` to `END`, with `synthesize → END`. -/
def runResearchWorkflow (llm : Oracle) (vs : VectorStore)
    (ws : List Char → Except (List Char) (List Char))
    (ne : List Char → Except (List Char) Int) (s0 : ResearchState) :
    Except (List Char) ResearchState := do
  let s1 ← create_research_plan llm s0
  let s2 := search_documents vs s1
  let s3 := search_web ws s2
  let s4 := perform_calculations ne llm s3
  if should_continue_research s4 = strL "error" then pure s4
  else synthesize_answer llm s4

/-- Model of `ChatState` from `app/graph_state.py`. -/
structure ChatState where
  messages : List Msg
  current_query : List Char
  context : Option (List Char)
  response : Option (List Char)
  should_search_docs : Bool
  should_search_web : Bool
deriving Repr, DecidableEq

/-- The analysis prompt of `analyze_query` (`app/graph_workflows.py`
lines 260-267). -/
def analyzePrompt (q : List Char) : List Char :=
  strL "Analyze this query: \"" ++ q
    ++ strL "\"\n\nShould we:\n1. Search documents? (Yes if asking about uploaded files)\n2. Search web? (Yes if asking about current events or facts)\n\nRespond with JSON:\n\x7b\"search_docs\": true/false, \"search_web\": true/false\x7d"

/-- The keyword fallback of `analyze_query` (`app/graph_workflows.py`
lines 276-279). -/
def analyzeFallback (q : List Char) : Bool × Bool :=
  let ql := lowerStr q
  ([strL "document", strL "file", strL "uploaded"].any (fun w => containsStr w ql),
   [strL "current", strL "latest", strL "search", strL "news"].any (fun w => containsStr w ql))

/-- Model of `analyze_query` (`app/graph_workflows.py` lines 254-287): asks the
Gateway (uncaught call), then reads the flags off the response.  The
`parseFlags` parameter models the `json.loads` path of the `try` block —
`some (d, w)` is a successfully parsed object with the truthiness of its
`search_docs`/`search_web` entries (absent keys default to false), `none`
is any exception from parsing, which triggers the keyword fallback. -/
def analyze_query (parseFlags : List Char → Option (Bool × Bool)) (llm : Oracle)
    (s : ChatState) : Except (List Char) ChatState := do
  let resp ← llm [Msg.human (analyzePrompt s.current_query)]
  let flags := match parseFlags resp with
    | some fs => fs
    | none => analyzeFallback s.current_query
  pure { s with should_search_docs := flags.1, should_search_web := flags.2 }

/-- Model of `route_query` (`app/graph_workflows.py` lines 289-296). -/
def route_query (s : ChatState) : List Char :=
  if s.should_search_docs then strL "fetch_context"
  else if s.should_search_web then strL "search_web"
  else strL "generate"

/-- Model of `fetch_document_context` (`app/graph_workflows.py` lines 298-321):
top-3 retrieval; the joined excerpts, a no-documents notice, or an error
string become the `context`. -/
def fetch_document_context (vs : VectorStore) (s : ChatState) : ChatState :=
  let context :=
    match vs.search s.current_query 3 with
    | Except.ok results =>
      if results ≠ [] then
        joinSep (strL "\n\n")
          (results.map fun d => strL "[" ++ d.filename ++ strL "]: " ++ d.page_content)
      else strL "No relevant documents found."
    | Except.error e => strL "Error fetching documents: " ++ e
  { s with context := some context }

/-- The conditional edge out of `analyze` in `create_chat_workflow`
(`app/graph_workflows.py` lines 362-370): `fetch_context` runs the
retrieval node; both `search_web` (mapped directly to `generate` — no web
node exists in this graph) and `generate` pass the state through
untouched. -/
def chat_route_step (vs : VectorStore) (s : ChatState) : ChatState :=
  if route_query s = strL "fetch_context" then fetch_document_context vs s
  else if route_query s = strL "search_web" then s
  else s

/-- Model of `generate_response` (`app/graph_workflows.py` lines 323-347): append
the context (when truthy) as a system instruction and the query as a
human turn, call the Gateway (uncaught), and record the response plus
both new turns. -/
def generate_response (llm : Oracle) (s : ChatState) :
    Except (List Char) ChatState := do
  let msgs := s.messages
    ++ (match s.context with
        | some c =>
          if c ≠ [] then
            [Msg.system (strL "Relevant context:\n" ++ c ++ strL "\n\nUse this context to answer the query.")]
          else []
        | none => [])
    ++ [Msg.human s.current_query]
  let resp ← llm msgs
  pure { s with
    response := some resp,
    messages := s.messages ++ [Msg.human s.current_query, Msg.ai resp] }

/-- The compiled chat graph of `create_chat_workflow`
(`app/graph_workflows.py` lines 349-375): `analyze`, the conditional
routing step, then `generate → END`. -/
def runChatWorkflow (parseFlags : List Char → Option (Bool × Bool)) (llm : Oracle)
    (vs : VectorStore) (s0 : ChatState) : Except (List Char) ChatState := do
  let s1 ← analyze_query parseFlags llm s0
  let s2 := chat_route_step vs s1
  generate_response llm s2

/-- Nonemptiness of an optional string (used to state that a `context`
was populated). -/
def optNonempty : Option (List Char) → Bool
  | some (_ :: _) => true
  | _ => false


/-! ### Concrete collaborators used by witnesses and counterexamples -/

/-- A one-tool registry with a calculator whose invocations succeed. -/
def exTools : List ToolDescriptor :=
  [⟨strL "Calculator", strL "Useful for math calculations", fun _ => Except.ok (strL "4")⟩]

/-- A Gateway scenario: first a well-formed calculator request, then a
final answer carrying an `ANSWER:` marker followed by extra whitespace. -/
def exLlm : Oracle := fun msgs =>
  if msgs.length ≤ 2 then Except.ok (strL "TOOL: Calculator\nINPUT: 2+2")
  else Except.ok (strL "ANSWER:  done")

/-- A Gateway scenario: a well-formed calculator request, then a raised
exception on the follow-up call. -/
def exLlmErr : Oracle := fun msgs =>
  if msgs.length ≤ 2 then Except.ok (strL "TOOL: Calculator\nINPUT: 2+2")
  else Except.error (strL "boom")

/-- A Gateway returning a fixed plain answer on every call. -/
def exLlmPlain : Oracle := fun _ => Except.ok (strL "hi there")

/-! ### Agent-loop theorems -/

/-- Each iteration of the loop issues exactly one Gateway call, so the
call counter grows by at most the remaining fuel. -/
theorem agentLoop_calls_le (tools : List ToolDescriptor) (llm : Oracle) (fuel : Nat) :
    ∀ msgs usage resp calls,
      (agentLoop tools llm fuel msgs usage resp calls).calls ≤ calls + fuel := by
  induction fuel with
  | zero => intro msgs usage resp calls; simp [agentLoop]
  | succ n ih =>
    intro msgs usage resp calls
    unfold agentLoop
    cases hllm : llm msgs with
    | error e => simp
    | ok r =>
      dsimp only
      split
      · split
        · split
          · split
            · simp
            · exact le_trans (ih _ _ _ _) (by omega)
          · simp
        · simp
      · simp

/-- C1: for every positive `max_iterations` and every query, one
execution of `run_agent` performs at most `max_iterations` Gateway
invocations. -/
theorem C1_gateway_call_bound (tools : List ToolDescriptor) (llm : Oracle)
    (query : List Char) (history : List (List Char × List Char))
    (max_iterations : Nat) (_hpos : 0 < max_iterations) :
    (run_agent tools llm query history max_iterations).2 ≤ max_iterations := by
  have h := agentLoop_calls_le tools llm max_iterations
    (initialMessages tools query history) [] [] 0
  simpa [run_agent] using h

/-- Witness for C1 at a concrete three-iteration run. -/
theorem C1_witness :
    0 < 3 ∧ (run_agent exTools exLlmPlain (strL "hi") [] 3).2 ≤ 3 :=
  ⟨by decide, C1_gateway_call_bound exTools exLlmPlain (strL "hi") [] 3 (by decide)⟩

/-- C3: whenever an exception from the Gateway or from a tool escapes to
the `except` handler, the returned record has `success = false`, `error`
the exception's message, the apology string as output, and an empty
`tool_usage` list — even when tools were dispatched earlier in the run. -/
theorem C3_exception_aborts_run (tools : List ToolDescriptor) (llm : Oracle)
    (query : List Char) (history : List (List Char × List Char))
    (max_iterations : Nat) (e : List Char)
    (herr : (agentLoop tools llm max_iterations
        (initialMessages tools query history) [] [] 0).err = some e) :
    (run_agent tools llm query history max_iterations).1 =
      ⟨strL "I encountered an error: " ++ e, [], false, some e⟩ := by
  simp only [run_agent, finishRun, herr]

/-- Witness for C3: a calculator dispatch succeeds on the first
iteration, then the second Gateway call raises `boom`; the run reports
the apology, empty `tool_usage` and `success = false`. -/
theorem C3_witness :
    (agentLoop exTools exLlmErr 5 (initialMessages exTools (strL "q") []) [] [] 0).err
        = some (strL "boom")
    ∧ (run_agent exTools exLlmErr (strL "q") [] 5).1 =
        ⟨strL "I encountered an error: boom", [], false, some (strL "boom")⟩ :=
  ⟨by decide, C3_exception_aborts_run exTools exLlmErr (strL "q") [] 5 (strL "boom") (by decide)⟩

/-- C2 (counterexample): the claim states that a Gateway response without
a `TOOL:`/`INPUT:` pair makes `run_agent` return "the response verbatim
(or everything after the first `ANSWER:` occurrence)" with an *empty*
`tool_usage` list.  In this concrete run the first response dispatches
the calculator and the second response `ANSWER:  done` has no pair, yet
the run ends with a non-empty `tool_usage`, and the output is the
whitespace-stripped suffix, not everything after the marker. -/
theorem C2_counterexample :
    containsStr (strL "TOOL:") (strL "ANSWER:  done") = false
    ∧ (run_agent exTools exLlm (strL "q") [] 5).2 = 2
    ∧ (run_agent exTools exLlm (strL "q") [] 5).1.success = true
    ∧ (run_agent exTools exLlm (strL "q") [] 5).1.tool_usage ≠ []
    ∧ (run_agent exTools exLlm (strL "q") [] 5).1.output
        ≠ afterFirst (strL "ANSWER:") (strL "ANSWER:  done") := by
  refine ⟨by decide, by decide, by decide, by decide, by decide⟩

/-- C2 (amended): a Gateway response that contains no `TOOL:`/`INPUT:`
marker pair, or whose extracted tool name is not in the registry, makes
the loop exit immediately after that single Gateway call with no tool
invoked in that iteration and `tool_usage` exactly the records
accumulated in earlier iterations (hence empty when it is the first
response); the resulting record has `success = true` and output equal to
the response itself or, when it contains `ANSWER:`, the text after the
first occurrence stripped of surrounding whitespace. -/
theorem C2_amended (tools : List ToolDescriptor) (llm : Oracle) (fuel : Nat)
    (msgs : List Msg) (usage : List ToolInvocationRecord) (prev r : List Char)
    (calls : Nat)
    (hr : llm msgs = Except.ok r)
    (hnp : (containsStr (strL "TOOL:") r && containsStr (strL "INPUT:") r) = false
      ∨ ∃ tn ti, searchToolName r = some tn ∧ searchInput r = some ti
          ∧ lookupTool tools (pyStrip tn) = none) :
    agentLoop tools llm (fuel + 1) msgs usage prev calls = ⟨r, usage, none, calls + 1⟩
    ∧ finishRun ⟨r, usage, none, calls + 1⟩ =
        ⟨extract_final_answer r, usage, true, none⟩ := by
  refine ⟨?_, rfl⟩
  unfold agentLoop
  rw [hr]
  rcases hnp with hnp | ⟨tn, ti, h1, h2, h3⟩
  · simp [hnp]
  · by_cases hm : (containsStr (strL "TOOL:") r && containsStr (strL "INPUT:") r) = true
    · simp [hm, h1, h2, h3]
    · simp [hm]

/-- Witness for C2 (amended) at a pair-free first response. -/
theorem C2_witness :
    agentLoop exTools exLlmPlain 1 [Msg.human (strL "q")] [] [] 0 =
        ⟨strL "hi there", [], none, 1⟩
    ∧ finishRun ⟨strL "hi there", [], none, 1⟩ =
        ⟨strL "hi there", [], true, none⟩ :=
  C2_amended exTools exLlmPlain 0 [Msg.human (strL "q")] [] [] (strL "hi there") 0
    rfl (Or.inl (by decide))

/-- C10: when a Gateway response contains both the `TOOL:` and `INPUT:`
substrings but the extraction patterns fail to produce both a tool name
and an input, the loop exits in that iteration without invoking any tool
or appending to `tool_usage`, and the run reports that response (through
the `ANSWER:` extraction) with `success = true`. -/
theorem C10_malformed_request_exits (tools : List ToolDescriptor) (llm : Oracle)
    (fuel : Nat) (msgs : List Msg) (usage : List ToolInvocationRecord)
    (prev r : List Char) (calls : Nat)
    (hr : llm msgs = Except.ok r)
    (hm : (containsStr (strL "TOOL:") r && containsStr (strL "INPUT:") r) = true)
    (hf : searchToolName r = none ∨ searchInput r = none) :
    agentLoop tools llm (fuel + 1) msgs usage prev calls = ⟨r, usage, none, calls + 1⟩
    ∧ finishRun ⟨r, usage, none, calls + 1⟩ =
        ⟨extract_final_answer r, usage, true, none⟩ := by
  refine ⟨?_, rfl⟩
  unfold agentLoop
  rw [hr]
  rcases hf with hf | hf <;> simp [hm, hf]

/-- A Gateway returning a response whose `INPUT:` marker sits at the very
end of the text, so the input pattern cannot capture anything. -/
def exLlmMalformed : Oracle := fun _ => Except.ok (strL "TOOL: x INPUT:")

/-- Witness for C10: `TOOL: x INPUT:` contains both markers but the input
extraction fails. -/
theorem C10_witness :
    agentLoop exTools exLlmMalformed 4 [Msg.human (strL "q")] [] [] 0 =
        ⟨strL "TOOL: x INPUT:", [], none, 1⟩
    ∧ finishRun ⟨strL "TOOL: x INPUT:", [], none, 1⟩ =
        ⟨strL "TOOL: x INPUT:", [], true, none⟩ :=
  C10_malformed_request_exits exTools exLlmMalformed 3 [Msg.human (strL "q")] [] []
    (strL "TOOL: x INPUT:") 0 rfl (by decide) (Or.inr (by decide))

/-- C4 (counterexample): the claim states that with `max_iterations = 1`
and a first response that is a well-formed request for a registered tool,
`tool_usage` is empty.  In this concrete run the single iteration
dispatches the calculator and records the invocation before the budget
cuts the loop off, so `tool_usage` holds one record. -/
theorem C4_counterexample :
    (run_agent exTools exLlm (strL "q") [] 1).2 = 1
    ∧ (run_agent exTools exLlm (strL "q") [] 1).1.output =
        strL "TOOL: Calculator\nINPUT: 2+2"
    ∧ (run_agent exTools exLlm (strL "q") [] 1).1.tool_usage =
        [⟨strL "Calculator", strL "2+2", strL "4"⟩]
    ∧ (run_agent exTools exLlm (strL "q") [] 1).1.tool_usage ≠ [] := by
  refine ⟨by decide, by decide, by decide, by decide⟩

/-- C4 (amended): with `max_iterations = 1` and a first Gateway response
that is a well-formed request for a registered tool, exactly one Gateway
call is made, the tool is dispatched once and recorded, and the model's
raw tool-request text is returned as the output with `success = true` and
`tool_usage` holding exactly that one invocation record. -/
theorem C4_amended (tools : List ToolDescriptor) (llm : Oracle)
    (query : List Char) (history : List (List Char × List Char))
    (r tn ti obs : List Char) (t : ToolDescriptor)
    (h1 : llm (initialMessages tools query history) = Except.ok r)
    (h2 : (containsStr (strL "TOOL:") r && containsStr (strL "INPUT:") r) = true)
    (h3 : searchToolName r = some tn)
    (h4 : searchInput r = some ti)
    (h5 : lookupTool tools (pyStrip tn) = some t)
    (h6 : t.func (pyStrip ti) = Except.ok obs)
    (h7 : containsStr (strL "ANSWER:") r = false) :
    run_agent tools llm query history 1 =
      (⟨r, [⟨pyStrip tn, pyStrip ti, obs.take 500⟩], true, none⟩, 1) := by
  unfold run_agent agentLoop
  rw [h1]
  simp only [h2, if_true, h3, h4, h5, h6]
  unfold agentLoop
  simp [finishRun, extract_final_answer, h7]

/-- Witness for C4 (amended) at the concrete calculator scenario. -/
theorem C4_witness :
    run_agent exTools exLlm (strL "q") [] 1 =
      (⟨strL "TOOL: Calculator\nINPUT: 2+2",
        [⟨strL "Calculator", strL "2+2", strL "4"⟩], true, none⟩, 1) :=
  C4_amended exTools exLlm (strL "q") []
    (strL "TOOL: Calculator\nINPUT: 2+2") (strL "Calculator") (strL "2+2") (strL "4")
    ⟨strL "Calculator", strL "Useful for math calculations", fun _ => Except.ok (strL "4")⟩
    rfl (by decide) (by decide) (by decide) rfl rfl (by decide)

/-! ### Workflow theorems -/

/-- A research state whose query carries document, web and calculation
cues, with no error set. -/
def exState : ResearchState :=
  ⟨strL "find the latest news in my documents and calculate 2+2",
   [], [], none, none, none, none, 0, false, none, none⟩

/-- A numeric evaluator that raises on every expression. -/
def exNeErr : List Char → Except (List Char) Int := fun _ => Except.error (strL "eval fail")

/-- A web-search collaborator that raises on every query. -/
def exWsErr : List Char → Except (List Char) (List Char) := fun _ => Except.error (strL "net down")

/-- A vector store whose calls all raise. -/
def exVsErr : VectorStore :=
  ⟨Except.error (strL "db down"), fun _ _ => Except.error (strL "db down")⟩

/-- A Gateway that raises on the research-plan prompt of `exState` and
returns the bare expression `2+2` on everything else. -/
def exLlmStep : Oracle := fun msgs =>
  if msgs = [Msg.human (planPrompt exState.query)] then Except.error (strL "gateway down")
  else Except.ok (strL "2+2")

/-- C5 (counterexample): the claim states that every step whose
collaborator call raises returns a state with `error` set, and names
`calculate` in particular.  Here the numeric evaluation in
`perform_calculations` raises, yet the step returns its input state
unchanged with `error` still `none`; and `create_research_plan` does not
even catch — its Gateway exception propagates out of the step. -/
theorem C5_counterexample :
    calcCue exState.query = true
    ∧ perform_calculations_attempt exNeErr exLlmStep exState = Except.error (strL "eval fail")
    ∧ perform_calculations exNeErr exLlmStep exState = exState
    ∧ exState.error = none
    ∧ create_research_plan exLlmStep exState = Except.error (strL "gateway down") :=
  ⟨by decide, rfl, rfl, rfl, rfl⟩

/-- C5 (amended): among the research steps, `search_docs` and
`search_web` catch their collaborator exceptions and return the state
with `error` set to a describing message, without re-raising; the
`calculate` step also catches (it never re-raises) but swallows the
exception, returning its input state unchanged with `error` not set; and
`plan` does not catch at all — a Gateway exception propagates out of it. -/
theorem C5_amended (vs : VectorStore) (ws : List Char → Except (List Char) (List Char))
    (ne : List Char → Except (List Char) Int) (llm : Oracle)
    (sd sw sc sp : ResearchState) (ed ew ec ep : List Char)
    (hdc : docCue sd.query = true)
    (hd : search_documents_attempt vs sd = Except.error ed)
    (hwc : webCue sw.query = true)
    (hw : ws sw.query = Except.error ew)
    (hcc : calcCue sc.query = true)
    (hc : perform_calculations_attempt ne llm sc = Except.error ec)
    (hp : llm [Msg.human (planPrompt sp.query)] = Except.error ep) :
    search_documents vs sd = { sd with error := some (strL "Document search error: " ++ ed) }
    ∧ search_web ws sw = { sw with error := some (strL "Web search error: " ++ ew) }
    ∧ perform_calculations ne llm sc = sc
    ∧ create_research_plan llm sp = Except.error ep := by
  refine ⟨?_, ?_, ?_, ?_⟩
  · simp [search_documents, hdc, hd]
  · simp [search_web, hwc, hw]
  · simp [perform_calculations, hcc, hc]
  · simp [create_research_plan, hp, Except.bind]

/-- Witness for C5 (amended): all collaborators fail on `exState`. -/
theorem C5_witness :
    search_documents exVsErr exState =
        { exState with error := some (strL "Document search error: db down") }
    ∧ search_web exWsErr exState =
        { exState with error := some (strL "Web search error: net down") }
    ∧ perform_calculations exNeErr exLlmStep exState = exState
    ∧ create_research_plan exLlmStep exState = Except.error (strL "gateway down") :=
  C5_amended exVsErr exWsErr exNeErr exLlmStep exState exState exState exState
    (strL "db down") (strL "net down") (strL "eval fail") (strL "gateway down")
    (by decide) rfl (by decide) rfl (by decide) rfl rfl

/-- C9: when the research `search_docs` step hits a retrieval exception,
the returned state differs from the input state only in the `error`
field — query, messages, `documents_found`, `web_results`,
`calculations`, `research_plan`, `final_answer` and `iterations` are all
unchanged. -/
theorem C9_retrieval_exception_frame (vs : VectorStore) (s : ResearchState) (e : List Char)
    (hcue : docCue s.query = true)
    (hatt : search_documents_attempt vs s = Except.error e) :
    (search_documents vs s).query = s.query
    ∧ (search_documents vs s).messages = s.messages
    ∧ (search_documents vs s).documents_found = s.documents_found
    ∧ (search_documents vs s).web_results = s.web_results
    ∧ (search_documents vs s).calculations = s.calculations
    ∧ (search_documents vs s).research_plan = s.research_plan
    ∧ (search_documents vs s).final_answer = s.final_answer
    ∧ (search_documents vs s).iterations = s.iterations
    ∧ (search_documents vs s).error = some (strL "Document search error: " ++ e) := by
  simp [search_documents, hcue, hatt]

/-- Witness for C9 at a failing vector store. -/
theorem C9_witness :
    (search_documents exVsErr exState).query = exState.query
    ∧ (search_documents exVsErr exState).messages = exState.messages
    ∧ (search_documents exVsErr exState).documents_found = exState.documents_found
    ∧ (search_documents exVsErr exState).web_results = exState.web_results
    ∧ (search_documents exVsErr exState).calculations = exState.calculations
    ∧ (search_documents exVsErr exState).research_plan = exState.research_plan
    ∧ (search_documents exVsErr exState).final_answer = exState.final_answer
    ∧ (search_documents exVsErr exState).iterations = exState.iterations
    ∧ (search_documents exVsErr exState).error = some (strL "Document search error: db down") :=
  C9_retrieval_exception_frame exVsErr exState (strL "db down") (by decide) rfl

/-- Reduction of a bind on a successful `Except` value. -/
@[simp] theorem except_ok_bind {ε α β : Type} (a : α) (f : α → Except ε β) :
    (Except.ok a >>= f : Except ε β) = f a := rfl

/-- Reduction of a bind on a failed `Except` value. -/
@[simp] theorem except_error_bind {ε α β : Type} (e : ε) (f : α → Except ε β) :
    (Except.error e >>= f : Except ε β) = Except.error e := rfl

/-- Reduction of `pure` into the `Except.ok` constructor. -/
@[simp] theorem except_pure_eq_ok {ε α : Type} (a : α) :
    (pure a : Except ε α) = Except.ok a := rfl

/-- The plan step adds exactly one to `iterations` and does not touch
`error`. -/
theorem create_research_plan_ok (llm : Oracle) (s s' : ResearchState)
    (h : create_research_plan llm s = Except.ok s') :
    s'.iterations = s.iterations + 1 ∧ s'.error = s.error := by
  unfold create_research_plan at h
  cases hllm : llm [Msg.human (planPrompt s.query)] <;> rw [hllm] at h <;> simp at h
  rw [← h]
  exact ⟨rfl, rfl⟩

/-- A successful pass of the `try` block of `search_documents` keeps
`iterations`, `error` and `final_answer`. -/
theorem search_documents_attempt_ok (vs : VectorStore) (s s' : ResearchState)
    (h : search_documents_attempt vs s = Except.ok s') :
    s'.iterations = s.iterations ∧ s'.error = s.error ∧ s'.final_answer = s.final_answer := by
  unfold search_documents_attempt at h
  cases hld : vs.list_documents <;> rw [hld] at h <;> simp at h
  split at h
  · simp at h; rw [← h]; exact ⟨rfl, rfl, rfl⟩
  · cases hsr : vs.search s.query 3 <;> rw [hsr] at h <;> simp at h
    rw [← h]; exact ⟨rfl, rfl, rfl⟩

/-- The `search_docs` step keeps `iterations`. -/
theorem search_documents_iterations (vs : VectorStore) (s : ResearchState) :
    (search_documents vs s).iterations = s.iterations := by
  unfold search_documents
  split
  · rfl
  · split
    · rename_i s' h; exact (search_documents_attempt_ok vs s s' h).1
    · rfl

/-- The `search_web` step keeps `iterations`. -/
theorem search_web_iterations (ws : List Char → Except (List Char) (List Char))
    (s : ResearchState) : (search_web ws s).iterations = s.iterations := by
  unfold search_web
  split
  · split <;> rfl
  · rfl

/-- A successful pass of the `try` block of `perform_calculations` that
returns an updated state keeps `iterations` and `error`. -/
theorem perform_calculations_attempt_ok (ne : List Char → Except (List Char) Int)
    (llm : Oracle) (s s' : ResearchState)
    (h : perform_calculations_attempt ne llm s = Except.ok (some s')) :
    s'.iterations = s.iterations ∧ s'.error = s.error := by
  unfold perform_calculations_attempt at h
  cases hllm : llm [Msg.human (calcPrompt s.query)] <;> rw [hllm] at h <;> simp at h
  split at h
  · rename_i resp hcond
    cases hne : ne (pyStrip resp) <;> rw [hne] at h <;> simp at h
    rw [← h]; exact ⟨rfl, rfl⟩
  · simp at h

/-- The `calculate` step keeps `iterations`. -/
theorem perform_calculations_iterations (ne : List Char → Except (List Char) Int)
    (llm : Oracle) (s : ResearchState) :
    (perform_calculations ne llm s).iterations = s.iterations := by
  unfold perform_calculations
  split
  · split
    · rename_i s' h; exact (perform_calculations_attempt_ok ne llm s s' h).1
    · rfl
    · rfl
  · rfl

/-- A successful synthesize step sets `final_answer` and keeps
`iterations` and `error`. -/
theorem synthesize_answer_ok (llm : Oracle) (s s' : ResearchState)
    (h : synthesize_answer llm s = Except.ok s') :
    s'.final_answer.isSome = true ∧ s'.iterations = s.iterations ∧ s'.error = s.error := by
  unfold synthesize_answer at h
  cases hllm : llm [Msg.human (synthPrompt s)] <;> rw [hllm] at h <;> simp at h
  rw [← h]; exact ⟨rfl, rfl, rfl⟩

/-- The post-`calculate` router returns `error` when `error` is set and
one of `synthesize`/`continue` otherwise. -/
theorem should_continue_research_cases (s : ResearchState) :
    (if s.error.isSome then should_continue_research s = strL "error"
     else should_continue_research s = strL "synthesize"
        ∨ should_continue_research s = strL "continue") := by
  unfold should_continue_research
  split
  · rename_i h; simp [h]
  · rename_i h
    split
    · left; rfl
    · split
      · left; rfl
      · right; rfl

/-- C7: `iterations` never decreases across any research step: `plan`
adds exactly one (so from 0 it reaches exactly 1) and no other step
changes it, hence a full run started at 0 ends with `iterations = 1`. -/
theorem C7_iterations_single_increment (llm : Oracle) (vs : VectorStore)
    (ws : List Char → Except (List Char) (List Char))
    (ne : List Char → Except (List Char) Int)
    (sP u t s0 : ResearchState) (s1 uS sf : ResearchState)
    (hplan : create_research_plan llm sP = Except.ok s1)
    (hsynth : synthesize_answer llm u = Except.ok uS)
    (hrun : runResearchWorkflow llm vs ws ne s0 = Except.ok sf)
    (h0 : s0.iterations = 0) :
    s1.iterations = sP.iterations + 1
    ∧ (search_documents vs t).iterations = t.iterations
    ∧ (search_web ws t).iterations = t.iterations
    ∧ (perform_calculations ne llm t).iterations = t.iterations
    ∧ uS.iterations = u.iterations
    ∧ sf.iterations = 1 := by
  refine ⟨(create_research_plan_ok llm sP s1 hplan).1,
    search_documents_iterations vs t, search_web_iterations ws t,
    perform_calculations_iterations ne llm t,
    (synthesize_answer_ok llm u uS hsynth).2.1, ?_⟩
  unfold runResearchWorkflow at hrun
  cases hp : create_research_plan llm s0 <;> rw [hp] at hrun <;> simp at hrun
  rename_i sA
  have hA : sA.iterations = (0 : Int) + 1 := h0 ▸ (create_research_plan_ok llm s0 sA hp).1
  have hX : (perform_calculations ne llm (search_web ws (search_documents vs sA))).iterations
      = sA.iterations := by
    rw [perform_calculations_iterations, search_web_iterations, search_documents_iterations]
  split at hrun
  · simp at hrun
    rw [← hrun, hX, hA]; ring
  · rw [(synthesize_answer_ok llm _ sf hrun).2.1, hX, hA]; ring

/-- The initial state used by the concrete workflow runs: a cue-free
query, empty gathered information, `iterations = 0`. -/
def plainState : ResearchState :=
  ⟨strL "hello there", [], [], none, none, none, none, 0, false, none, none⟩

/-- The state after `create_research_plan` on `plainState` with the
constant Gateway `exLlmPlain`. -/
def plainAfterPlan : ResearchState :=
  ⟨strL "hello there", [Msg.ai (strL "Research plan: hi there")], [], none, none,
   some (strL "hi there"), none, 1, false, none, none⟩

/-- The final state of the research run on `plainState` with the constant
Gateway `exLlmPlain`. -/
def plainRunOut : ResearchState :=
  ⟨strL "hello there",
   [Msg.ai (strL "Research plan: hi there"), Msg.ai (strL "hi there")], [], none, none,
   some (strL "hi there"), some (strL "hi there"), 1, false, none, none⟩

/-- The state after `synthesize_answer` on `plainState` with the constant
Gateway `exLlmPlain`. -/
def plainAfterSynth : ResearchState :=
  ⟨strL "hello there", [Msg.ai (strL "hi there")], [], none, none,
   none, some (strL "hi there"), 0, false, none, none⟩

/-- Witness for C7 at a concrete full research run. -/
theorem C7_witness :
    plainAfterPlan.iterations = plainState.iterations + 1
    ∧ (search_documents exVsErr plainState).iterations = plainState.iterations
    ∧ (search_web exWsErr plainState).iterations = plainState.iterations
    ∧ (perform_calculations exNeErr exLlmPlain plainState).iterations = plainState.iterations
    ∧ plainAfterSynth.iterations = plainState.iterations
    ∧ plainRunOut.iterations = 1 :=
  C7_iterations_single_increment exLlmPlain exVsErr exWsErr exNeErr
    plainState plainState plainState plainState plainAfterPlan plainAfterSynth plainRunOut
    rfl rfl rfl rfl

/-- C6: the post-`calculate` router is a pure function of the state — it
returns `error` exactly on an error state and otherwise one of
`synthesize`/`continue`, both of which the graph wires to `synthesize` —
and every completed error-free run carries a synthesized `final_answer`,
whether or not any information was gathered. -/
theorem C6_routing_reaches_synthesize (llm : Oracle) (vs : VectorStore)
    (ws : List Char → Except (List Char) (List Char))
    (ne : List Char → Except (List Char) Int)
    (s0 sf s4 : ResearchState)
    (hrun : runResearchWorkflow llm vs ws ne s0 = Except.ok sf)
    (herr : sf.error = none) :
    sf.final_answer.isSome = true
    ∧ (if s4.error.isSome then should_continue_research s4 = strL "error"
       else should_continue_research s4 = strL "synthesize"
          ∨ should_continue_research s4 = strL "continue") := by
  refine ⟨?_, should_continue_research_cases s4⟩
  unfold runResearchWorkflow at hrun
  cases hp : create_research_plan llm s0 <;> rw [hp] at hrun <;> simp at hrun
  rename_i sA
  split at hrun
  · rename_i hroute
    simp at hrun
    rw [← hrun] at herr
    have hc := should_continue_research_cases
      (perform_calculations ne llm (search_web ws (search_documents vs sA)))
    rw [if_neg (by simp [herr])] at hc
    rcases hc with hc | hc <;> rw [hc] at hroute <;> exact absurd hroute (by decide)
  · exact (synthesize_answer_ok llm _ sf hrun).1

/-- Witness for C6 at a concrete cue-free error-free run. -/
theorem C6_witness :
    plainRunOut.final_answer.isSome = true
    ∧ (if plainRunOut.error.isSome then should_continue_research plainRunOut = strL "error"
       else should_continue_research plainRunOut = strL "synthesize"
          ∨ should_continue_research plainRunOut = strL "continue") :=
  C6_routing_reaches_synthesize exLlmPlain exVsErr exWsErr exNeErr
    plainState plainRunOut plainRunOut rfl rfl

/-- C8: the analyze step never touches `context`; when
`should_search_docs` is true the routing step runs `fetch_context`, which
always populates `context` with a non-empty string (document excerpts, a
no-documents notice, or an error string) before `generate`; when it is
false the routing step passes the state through unchanged — in
particular `context` stays unset and `should_search_web` has no further
effect, both remaining branches going directly to `generate`. -/
theorem C8_chat_context_population (parseFlags : List Char → Option (Bool × Bool))
    (llm : Oracle) (vs : VectorStore) (s0 s1 : ChatState) :
    ((analyze_query parseFlags llm s0).toOption.all fun s => s.context == s0.context) = true
    ∧ (if s1.should_search_docs then optNonempty (chat_route_step vs s1).context = true
       else chat_route_step vs s1 = s1) := by
  constructor
  · unfold analyze_query
    cases hllm : llm [Msg.human (analyzePrompt s0.current_query)] <;> simp [Except.toOption]
  · split
    · rename_i h
      simp only [chat_route_step, route_query, h, if_true]
      unfold fetch_document_context
      cases hs : vs.search s1.current_query 3 with
      | error e => rfl
      | ok results =>
        cases results with
        | nil => rfl
        | cons d rest => cases rest <;> rfl
    · rename_i h
      have hb : s1.should_search_docs = false := by
        cases hd : s1.should_search_docs
        · rfl
        · exact absurd hd h
      cases hw : s1.should_search_web <;>
        simp [chat_route_step, route_query, hb, hw,
          show ¬(strL "search_web" = strL "fetch_context") by decide,
          show ¬(strL "generate" = strL "fetch_context") by decide]

/-! ### Behavioural checks of the extraction models on concrete texts -/

example : searchToolName (strL "TOOL: Calculator\nINPUT: 2+2") = some (strL "Calculator") := by decide
example : searchInput (strL "TOOL: Calculator\nINPUT: 2+2") = some (strL "2+2") := by decide
example : searchInput (strL "TOOL: x INPUT:") = none := by decide
example : searchToolName (strL "TOOL: !\nINPUT: 2") = none := by decide
example : searchToolName (strL "TOOL:\nINPUT: x") = some (strL "INPUT") := by decide
example : searchInput (strL "INPUT:\n") = some (strL "\n") := by decide
example : extract_final_answer (strL "ANSWER:  done") = strL "done" := by decide
example : extract_final_answer (strL "plain") = strL "plain" := by decide
